import Mathlib

set_option linter.unusedVariables false

/-!
Verification of the whale position tracker's reconciliation core
(`profitable_whale_tracker_bot_adjusted.py`), shallowly embedded in Lean.

Numeric quantities (sizes, prices, values) are modelled as rationals;
the remote fetch results (`get_whale_positions`) are passed in as explicit
snapshot values, so every function below is a pure translation of the
corresponding Python method, keeping its branch structure.  Message
rendering (HTML text, emoji lines) is abstracted to the structured
`Alert` payload that classifies each alert: kind, coin, side, the
emoji/tier pair computed by `get_position_emoji_and_tier`, and the value
and price passed to the send function.
-/

namespace WhaleTracker

/-- One raw fill record, with the fields the tracker reads
(`trade['coin']`, `trade['side']`, `trade['sz']`, `trade['px']`). -/
structure Fill where
  coin : String
  side : String
  sz : ℚ
  px : ℚ
deriving Repr, DecidableEq

/-- One entry of the snapshot built by `get_whale_positions` (lines 292-298
of the source): size, side, value, avg_price, current_price. -/
structure GtPos where
  size : ℚ
  side : String
  value : ℚ
  avg_price : ℚ
  current_price : ℚ
deriving Repr, DecidableEq

/-- A ground-truth snapshot: the dict returned by `get_whale_positions`.
An empty list models both "fetch failed" and "truly flat"; the Python
code cannot tell the two apart (both are `{}`). -/
abbrev Snap := List (String × GtPos)

/-- A tracked position, the value of `self.positions[coin]`. -/
structure Position where
  size : ℚ
  value : ℚ
  side : String
  max_value : ℚ
  avg_price : ℚ
  current_price : ℚ
deriving Repr, DecidableEq

/-- The zero-size stub the code installs at line 488 when a batch arrives
for a coin with no tracked position. -/
def zeroPosition : Position :=
  { size := 0, value := 0, side := "", max_value := 0, avg_price := 0, current_price := 0 }

/-- Dictionary lookup on an association list (Python `d.get(k)` / `k in d`). -/
def alookup {α β : Type} [DecidableEq α] : List (α × β) → α → Option β
  | [], _ => none
  | (k, v) :: t, k' => if k = k' then some v else alookup t k'

/-- Dictionary assignment `d[k] = v`: replace in place, or append. -/
def aset {α β : Type} [DecidableEq α] : List (α × β) → α → β → List (α × β)
  | [], k, v => [(k, v)]
  | (k0, v0) :: t, k, v => if k0 = k then (k, v) :: t else (k0, v0) :: aset t k v

/-- Dictionary deletion `del d[k]` (no-op when the key is absent; the
tracker only deletes keys it knows are present, see the call sites). -/
def aerase {α β : Type} [DecidableEq α] (l : List (α × β)) (k : α) : List (α × β) :=
  l.filter (fun p => ! decide (p.1 = k))

/-- Python `coin in current_positions`. -/
def snapContains (s : Snap) (coin : String) : Bool :=
  (alookup s coin).isSome

/-- `verify_position_closed` (source lines 306-332), as a function of the
sequence of snapshots the successive `get_whale_positions` calls return:
one snapshot per attempt, `POSITION_CLOSE_VERIFY_ATTEMPTS = 3` in the
deployed configuration.  Per attempt: an empty snapshot on a non-final
attempt is skipped as "might be temporary issue"; a snapshot containing
the coin returns `false` (not closed) immediately; once the attempt
budget is exhausted the verifier returns `true` (closed). -/
def verify_position_closed (coin : String) (snaps : List Snap) : Bool :=
  match snaps with
  | [] => true
  | s :: rest =>
    if s.isEmpty && !rest.isEmpty then
      verify_position_closed coin rest
    else if snapContains s coin then
      false
    else
      verify_position_closed coin rest

/-- The configurable thresholds read in `__init__` (lines 66-67):
`MIN_POSITION_VALUE` (default 100000) and `PARTIAL_CHANGE_THRESHOLD`
(default 0.15). -/
structure Config where
  MIN_POSITION_VALUE : ℚ
  PARTIAL_CHANGE_THRESHOLD : ℚ
deriving Repr, DecidableEq

/-- The deployed defaults: $100K minimum, 15% threshold. -/
def defaultConfig : Config :=
  { MIN_POSITION_VALUE := 100000, PARTIAL_CHANGE_THRESHOLD := 15 / 100 }

/-- The four alert classes dispatched at lines 584-598. -/
inductive AlertKind where
  | OPEN
  | CLOSE
  | PARTIAL_INCREASE
  | PARTIAL_CLOSE
deriving Repr, DecidableEq

/-- The structured content of a sent alert: its class, the coin and side
named in the message, the emoji/tier pair the `send_*_alert` function
computed, the headline value and the price it rendered.  The rest of the
Telegram message body is pure text rendering of these fields. -/
structure Alert where
  kind : AlertKind
  coin : String
  side : String
  emoji : String
  tier : String
  value : ℚ
  price : ℚ
deriving Repr, DecidableEq

/-- `get_position_emoji_and_tier` (lines 428-443): severity lookup.
BTC/ETH get four tiers; every other coin a single $100K+ tier. -/
def get_position_emoji_and_tier (coin : String) (value : ℚ) : String × String :=
  if coin = "BTC" ∨ coin = "ETH" then
    if 50000000 ≤ value then ("🚀🚀🚀🚀", "50M+")
    else if 10000000 ≤ value then ("🚨🚨🚨", "10M+")
    else if 1000000 ≤ value then ("👽👽", "1M+")
    else if 100000 ≤ value then ("🟡", "100K+")
    else ("", "")
  else if 100000 ≤ value then ("🤡🤡", "100K+")
  else ("", "")

/-- `send_open_alert` (lines 606-624): tier from the `value` argument,
which the caller passes as the current position value. -/
def send_open_alert (coin side : String) (value price : ℚ) : Alert :=
  let et := get_position_emoji_and_tier coin value
  { kind := .OPEN, coin := coin, side := side, emoji := et.1, tier := et.2,
    value := value, price := price }

/-- `send_close_alert` (lines 626-649): tier from the `value` argument,
which every caller passes as the position's last tracked value. -/
def send_close_alert (coin side : String) (value price : ℚ) : Alert :=
  let et := get_position_emoji_and_tier coin value
  { kind := .CLOSE, coin := coin, side := side, emoji := et.1, tier := et.2,
    value := value, price := price }

/-- `send_partial_close_alert` (lines 651-675): tier from the tracked
position's `max_value` (falling back to `prev_value` when absent). -/
def send_partial_close_alert (positions : List (String × Position)) (coin side : String)
    (prev_value curr_value price : ℚ) : Alert :=
  let max_value := ((alookup positions coin).map (fun p => p.max_value)).getD prev_value
  let et := get_position_emoji_and_tier coin max_value
  { kind := .PARTIAL_CLOSE, coin := coin, side := side, emoji := et.1, tier := et.2,
    value := curr_value, price := price }

/-- `send_partial_increase_alert` (lines 677-698): tier from the tracked
position's `max_value` (falling back to `curr_value` when absent). -/
def send_partial_increase_alert (positions : List (String × Position)) (coin side : String)
    (prev_value curr_value price : ℚ) : Alert :=
  let max_value := ((alookup positions coin).map (fun p => p.max_value)).getD curr_value
  let et := get_position_emoji_and_tier coin max_value
  { kind := .PARTIAL_INCREASE, coin := coin, side := side, emoji := et.1, tier := et.2,
    value := curr_value, price := price }

/-- The tracker's mutable per-run tables: `self.positions`,
`self.pending_fills` (a `defaultdict(list)` keyed by `(coin, side)`),
and `self.fill_timers` (modelled by its key set; the stored task object
is irrelevant to the reconciliation logic). -/
structure TrackerState where
  positions : List (String × Position)
  pending_fills : List ((String × String) × List Fill)
  fill_timers : List (String × String)
deriving Repr, DecidableEq

/-- `total_size` of a flushed batch (line 477): sum of the fills' sizes. -/
def total_size (fills : List Fill) : ℚ :=
  (fills.map (fun f => f.sz)).sum

/-- `avg_price` of a flushed batch (line 478): size-weighted average of
the fills' prices. -/
def avg_price (fills : List Fill) : ℚ :=
  (fills.map (fun f => f.px * f.sz)).sum / total_size fills

/-- The outcome of one run of `process_aggregated_fills`: the state after
the run, the alert it sent (if any), and whether it called
`save_positions` (line 600). -/
structure ProcResult where
  state : TrackerState
  alert : Option Alert
  saved : Bool
deriving Repr, DecidableEq

/-- Default used for the (unreachable) snapshot lookup fallback. -/
def gtDefault : GtPos :=
  { size := 0, side := "", value := 0, avg_price := 0, current_price := 0 }

/-- `process_aggregated_fills` (lines 467-604), as a function of the key
it was armed for, the state when the timer fires, the ground-truth
snapshot its own `get_whale_positions` call returns, and the snapshots
the close verifier would see on its attempts.  The debounce sleep, the
BTC-price fetch and all printing are dropped; every branch, early return
and table mutation of the source is kept. -/
def process_aggregated_fills (cfg : Config) (coin side : String)
    (st : TrackerState) (current_positions : Snap) (verify_snaps : List Snap) : ProcResult :=
  let key := (coin, side)
  let fills := (alookup st.pending_fills key).getD []
  if fills.isEmpty then
    { state := st, alert := none, saved := false }
  else
    let avg := avg_price fills
    let position_value := avg * total_size fills
    let positions0 :=
      if (alookup st.positions coin).isSome then st.positions
      else aset st.positions coin zeroPosition
    let prev := (alookup positions0 coin).getD zeroPosition
    let prev_size := prev.size
    let prev_value := prev.value
    let prev_side := prev.side
    let has_position_on_exchange := snapContains current_positions coin
    let clear := fun (ps : List (String × Position)) =>
      TrackerState.mk ps (aerase st.pending_fills key)
        (st.fill_timers.filter (fun k => ! decide (k = key)))
    if prev_size = 0 ∧ has_position_on_exchange then
      let actual := (alookup current_positions coin).getD gtDefault
      if cfg.MIN_POSITION_VALUE ≤ position_value then
        let newPos : Position :=
          { size := actual.size, value := actual.value, side := actual.side,
            max_value := actual.value, avg_price := actual.avg_price,
            current_price := actual.current_price }
        let positions1 := aset positions0 coin newPos
        { state := clear positions1,
          alert := some (send_open_alert coin newPos.side newPos.value avg),
          saved := true }
      else
        { state := clear positions0, alert := none, saved := false }
    else if 0 < prev_size ∧ ¬has_position_on_exchange then
      let is_closed := verify_position_closed coin verify_snaps
      if is_closed ∧ cfg.MIN_POSITION_VALUE ≤ prev_value then
        let positions1 := aerase positions0 coin
        { state := clear positions1,
          alert := some (send_close_alert coin prev_side prev_value avg),
          saved := true }
      else
        { state := clear positions0, alert := none, saved := false }
    else if 0 < prev_size ∧ has_position_on_exchange then
      let actual := (alookup current_positions coin).getD gtDefault
      let new_size := actual.size
      let new_value := actual.value
      if prev_size < new_size then
        let change_pct := (new_size - prev_size) / prev_size
        if cfg.PARTIAL_CHANGE_THRESHOLD ≤ change_pct then
          let positions1 := aset positions0 coin
            { prev with
                size := new_size, value := new_value,
                avg_price := actual.avg_price, current_price := actual.current_price,
                max_value := max new_value prev.max_value }
          { state := clear positions1,
            alert := some (send_partial_increase_alert positions1 coin
              (((alookup positions1 coin).getD zeroPosition).side) prev_value
              (((alookup positions1 coin).getD zeroPosition).value) avg),
            saved := true }
        else
          let positions1 := aset positions0 coin
            { prev with
                size := new_size, value := new_value,
                avg_price := actual.avg_price, current_price := actual.current_price }
          { state := clear positions1, alert := none, saved := false }
      else
        if cfg.PARTIAL_CHANGE_THRESHOLD ≤ (prev_size - new_size) / prev_size then
          let positions1 := aset positions0 coin
            { prev with
                size := new_size, value := new_value,
                current_price := actual.current_price }
          { state := clear positions1,
            alert := some (send_partial_close_alert positions1 coin
              (((alookup positions1 coin).getD zeroPosition).side) prev_value
              (((alookup positions1 coin).getD zeroPosition).value) avg),
            saved := true }
        else
          let positions1 := aset positions0 coin
            { prev with
                size := new_size, value := new_value,
                current_price := actual.current_price }
          { state := clear positions1, alert := none, saved := false }
    else
      { state := clear positions0, alert := none, saved := false }

/-- The outcome of one run of `verify_all_positions`: the positions table
after the sweep, the CLOSE alerts it sent in order, the count it
returns, and whether it called `save_positions` (line 385). -/
structure SweepResult where
  positions : List (String × Position)
  alerts : List Alert
  positions_closed : Nat
  saved : Bool
deriving Repr, DecidableEq

/-- One iteration of the sweep's per-coin loop (lines 355-381): re-read
the tracked entry, run the close verifier on that coin's snapshots, and
on confirmation send a CLOSE alert (price from `get_asset_price`, falling
back to the tracked current price when it returns 0) and delete the
entry. -/
def sweepStep (verify_snaps : String → List Snap) (asset_price : String → ℚ)
    (acc : List (String × Position) × List Alert × Nat) (coin : String) :
    List (String × Position) × List Alert × Nat :=
  match alookup acc.1 coin with
  | none => acc
  | some tracked_pos =>
    if verify_position_closed coin (verify_snaps coin) then
      let p0 := asset_price coin
      let current_price := if p0 = 0 then tracked_pos.current_price else p0
      (aerase acc.1 coin,
       acc.2.1 ++ [send_close_alert coin tracked_pos.side tracked_pos.value current_price],
       acc.2.2 + 1)
    else
      acc

/-- `verify_all_positions` (lines 334-387): skip when the table is empty
or the sweep's own ground-truth fetch comes back empty; otherwise run
the close verifier on every tracked coin absent from the snapshot,
deleting and alerting the confirmed ones, and persist iff at least one
position was closed.  Note the loop applies no `MIN_POSITION_VALUE`
check. -/
def verify_all_positions (positions : List (String × Position)) (current_positions : Snap)
    (verify_snaps : String → List Snap) (asset_price : String → ℚ) : SweepResult :=
  if positions.isEmpty then
    { positions := positions, alerts := [], positions_closed := 0, saved := false }
  else if current_positions.isEmpty then
    { positions := positions, alerts := [], positions_closed := 0, saved := false }
  else
    let coins_to_verify_close :=
      (positions.filter (fun p => ! snapContains current_positions p.1)).map (fun p => p.1)
    let r := coins_to_verify_close.foldl (sweepStep verify_snaps asset_price) (positions, [], 0)
    { positions := r.1, alerts := r.2.1, positions_closed := r.2.2, saved := decide (0 < r.2.2) }

/-- `queue_fill_for_aggregation` (lines 700-723): drop fills whose
notional value is below $10,000; otherwise append the fill to the
pending batch for `(coin, side)` and cancel-and-replace the debounce
timer for that key. -/
def queue_fill_for_aggregation (st : TrackerState) (trade : Fill) : TrackerState :=
  if trade.sz * trade.px < 10000 then st
  else
    let key := (trade.coin, trade.side)
    { positions := st.positions,
      pending_fills :=
        aset st.pending_fills key (((alookup st.pending_fills key).getD []) ++ [trade]),
      fill_timers := (st.fill_timers.filter (fun k => ! decide (k = key))) ++ [key] }

/-! Concrete fixtures used by the per-claim witnesses and counterexamples. -/

/-- A tracked BTC long worth $250K (witness fixture). -/
def c1_pos : Position :=
  { size := 2, value := 250000, side := "LONG", max_value := 250000,
    avg_price := 100000, current_price := 125000 }

/-- The ground-truth form of the same position (witness fixture). -/
def c1_gtpos : GtPos :=
  { size := 2, side := "LONG", value := 250000, avg_price := 100000,
    current_price := 125000 }

/-- Tracker state holding that position with one pending fill (witness
fixture). -/
def c1_state : TrackerState :=
  { positions := [("BTC", c1_pos)],
    pending_fills := [(("BTC", "B"), [{ coin := "BTC", side := "B", sz := 1, px := 20000 }])],
    fill_timers := [("BTC", "B")] }

/-- Verification fetches: failure, then a sighting, then failure. -/
def c1_vsnaps : List Snap := [[], [("BTC", c1_gtpos)], []]

/-- C3 witness fixture: no tracked position, one pending fill of notional
$150K for BTC/B. -/
def c3_state : TrackerState :=
  { positions := [],
    pending_fills := [(("BTC", "B"), [{ coin := "BTC", side := "B", sz := 5, px := 30000 }])],
    fill_timers := [("BTC", "B")] }

/-- C3 witness fixture: the ground-truth position the exchange reports. -/
def c3_actual : GtPos :=
  { size := 5, side := "LONG", value := 160000, avg_price := 30000, current_price := 32000 }

/-- C3 counterexample fixture: a pending fill batch of notional $20K. -/
def c3x_state : TrackerState :=
  { positions := [],
    pending_fills := [(("BTC", "B"), [{ coin := "BTC", side := "B", sz := 1, px := 20000 }])],
    fill_timers := [("BTC", "B")] }

/-- C3 counterexample fixture: ground truth shows BTC present at $200K,
above the $100K minimum. -/
def c3x_actual : GtPos :=
  { size := 10, side := "LONG", value := 200000, avg_price := 20000, current_price := 20000 }

/-- C4 counterexample fixture: a tracked position worth only $50K. -/
def c4x_pos : Position :=
  { size := 10, value := 50000, side := "LONG", max_value := 50000,
    avg_price := 5000, current_price := 5000 }

/-- C4 counterexample fixture: a non-empty sweep snapshot without ABC. -/
def c4x_gt : Snap :=
  [("BTC", { size := 1, side := "LONG", value := 150000, avg_price := 100,
             current_price := 100 })]

/-- C5 counterexample fixture: a BTC long opened at $2M (max_value) and
since reduced by 90% to $200K. -/
def c5x_pos : Position :=
  { size := 1, value := 200000, side := "LONG", max_value := 2000000,
    avg_price := 50000, current_price := 50000 }

/-- C5 counterexample fixture: tracker state holding that position with
one pending sell fill. -/
def c5x_state : TrackerState :=
  { positions := [("BTC", c5x_pos)],
    pending_fills := [(("BTC", "A"), [{ coin := "BTC", side := "A", sz := 1, px := 20000 }])],
    fill_timers := [("BTC", "A")] }

/-- C6 counterexample fixture: no tracked position, one pending batch for
an instrument absent from ground truth. -/
def c6x_state : TrackerState :=
  { positions := [],
    pending_fills := [(("ABC", "B"), [{ coin := "ABC", side := "B", sz := 1, px := 20000 }])],
    fill_timers := [("ABC", "B")] }

/-- C8 counterexample fixture: a dust fill of notional $5,000, below the
aggregator's $10,000 floor. -/
def c8x_fill : Fill := { coin := "BTC", side := "B", sz := 1, px := 5000 }

/-- A tracker state with all tables empty (fresh start fixture). -/
def c8x_st0 : TrackerState := { positions := [], pending_fills := [], fill_timers := [] }

/-- C9 counterexample fixture: a tracked BTC long of size 100. -/
def c9x_pos : Position :=
  { size := 100, value := 150000, side := "LONG", max_value := 150000,
    avg_price := 1500, current_price := 1500 }

/-- C9 counterexample fixture: tracker state with that position and one
pending sell fill. -/
def c9x_state : TrackerState :=
  { positions := [("BTC", c9x_pos)],
    pending_fills := [(("BTC", "A"), [{ coin := "BTC", side := "A", sz := 1, px := 20000 }])],
    fill_timers := [("BTC", "A")] }

/-- C9 counterexample fixture: ground truth shows the position reduced by
5%, below the 15% partial-change threshold. -/
def c9x_gt : Snap :=
  [("BTC", { size := 95, side := "LONG", value := 142500, avg_price := 1500,
             current_price := 1500 })]

/-- C10 counterexample fixture: a fill of size 1 at price 20000. -/
def c10x_f1 : Fill := { coin := "BTC", side := "B", sz := 1, px := 20000 }

/-- C10 counterexample fixture: a fill with negative size and negative
price; its notional `sz * px = 20000` passes the $10,000 admission
guard. -/
def c10x_f2 : Fill := { coin := "BTC", side := "B", sz := -1, px := -20000 }

/-! Helper lemmas about the dictionary operations and the verifier. -/

theorem alookup_aset_self {α β : Type} [DecidableEq α] (l : List (α × β)) (k : α) (v : β) :
    alookup (aset l k v) k = some v := by
  induction l with
  | nil => simp [aset, alookup]
  | cons hd t ih =>
    obtain ⟨k0, v0⟩ := hd
    by_cases hk : k0 = k
    · simp [aset, hk, alookup]
    · simp [aset, hk, alookup, ih]

theorem alookup_aset_ne {α β : Type} [DecidableEq α] (l : List (α × β)) (k k' : α) (v : β)
    (h : k ≠ k') : alookup (aset l k v) k' = alookup l k' := by
  induction l with
  | nil => simp [aset, alookup, h]
  | cons hd t ih =>
    obtain ⟨k0, v0⟩ := hd
    by_cases hk : k0 = k
    · subst hk
      simp [aset, alookup, h]
    · simp [aset, hk, alookup, ih]

theorem aset_aset {α β : Type} [DecidableEq α] (l : List (α × β)) (k : α) (v w : β) :
    aset (aset l k v) k w = aset l k w := by
  induction l with
  | nil => simp [aset]
  | cons hd t ih =>
    obtain ⟨k0, v0⟩ := hd
    by_cases hk : k0 = k
    · simp [aset, hk]
    · simp [aset, hk, ih]

theorem alookup_aerase_self {α β : Type} [DecidableEq α] (l : List (α × β)) (k : α) :
    alookup (aerase l k) k = none := by
  induction l with
  | nil => simp [aerase, alookup]
  | cons hd t ih =>
    obtain ⟨k0, v0⟩ := hd
    by_cases hk : k0 = k
    · simpa [aerase, hk] using ih
    · simpa [aerase, List.filter_cons, hk, alookup] using ih

theorem not_mem_filter_self {α : Type} [DecidableEq α] (k : α) (l : List α) :
    k ∉ l.filter (fun x => ! decide (x = k)) := by
  intro h
  simp [List.mem_filter] at h

theorem snapContains_isEmpty_false {s : Snap} {coin : String}
    (h : snapContains s coin = true) : s.isEmpty = false := by
  cases s with
  | nil => simp [snapContains, alookup] at h
  | cons a t => simp [List.isEmpty]

/-- If any of the verifier's fetch attempts contains the coin, the
verifier answers "not closed". -/
theorem verify_false_of_mem_contains (coin : String) (snaps : List Snap)
    (h : ∃ s ∈ snaps, snapContains s coin = true) :
    verify_position_closed coin snaps = false := by
  induction snaps with
  | nil => simp at h
  | cons a rest ih =>
    obtain ⟨s, hs, hc⟩ := h
    rcases List.mem_cons.mp hs with rfl | hmem
    · have he : s.isEmpty = false := snapContains_isEmpty_false hc
      simp [verify_position_closed, he, hc]
    · have hrest := ih ⟨s, hmem, hc⟩
      by_cases he : (a.isEmpty && !rest.isEmpty) = true
      · simp [verify_position_closed, he, hrest]
      · by_cases hca : snapContains a coin = true
        · simp [verify_position_closed, he, hca]
        · simp [verify_position_closed, he, hca, hrest]

/-! Theorems for the frozen claims. -/

/-- C1: if some ground-truth fetch attempt during close verification
returns a snapshot containing the instrument, `verify_position_closed`
returns `false` no matter what the earlier attempts showed and no matter
what any later attempt would have returned (short-circuit); and on the
batch-evaluation close path a verification run with such a sighting
emits no CLOSE alert and leaves the position table unchanged. -/
theorem spec_c1 :
    (∀ (coin : String) (pre post : List Snap) (s : Snap),
        snapContains s coin = true →
        verify_position_closed coin (pre ++ s :: post) = false) ∧
    (∀ (cfg : Config) (coin side : String) (st : TrackerState) (gt : Snap)
        (vsnaps : List Snap) (p : Position),
        ((alookup st.pending_fills (coin, side)).getD []).isEmpty = false →
        alookup st.positions coin = some p →
        0 < p.size →
        snapContains gt coin = false →
        (∃ s ∈ vsnaps, snapContains s coin = true) →
        (process_aggregated_fills cfg coin side st gt vsnaps).alert = none ∧
        (process_aggregated_fills cfg coin side st gt vsnaps).state.positions = st.positions) := by
  constructor
  · intro coin pre post s hc
    exact verify_false_of_mem_contains coin _ ⟨s, by simp, hc⟩
  · intro cfg coin side st gt vsnaps p hfills hp hpos hgt hsight
    have hver : verify_position_closed coin vsnaps = false :=
      verify_false_of_mem_contains coin vsnaps hsight
    have hne : p.size ≠ 0 := ne_of_gt hpos
    simp [process_aggregated_fills, hfills, hp, hpos, hgt, hver, hne]

/-- C1 witness: ground truth absent on attempt 1 (a non-empty snapshot
without the coin), present on attempt 2: the verifier answers `false`
and the batch close path emits no alert. -/
theorem spec_c1_witness :
    verify_position_closed "BTC" ([[("ETH", c1_gtpos)]] ++ [("BTC", c1_gtpos)] :: [[]]) = false ∧
    (process_aggregated_fills defaultConfig "BTC" "B" c1_state [] c1_vsnaps).alert = none := by
  constructor
  · exact spec_c1.1 "BTC" [[("ETH", c1_gtpos)]] [[]] [("BTC", c1_gtpos)] (by decide)
  · exact (spec_c1.2 defaultConfig "BTC" "B" c1_state [] c1_vsnaps c1_pos (by decide) (by decide)
      (by decide) (by decide) ⟨[("BTC", c1_gtpos)], by simp [c1_vsnaps], by decide⟩).1

/-- C2 counterexample: when every verification fetch attempt returns the
empty result of a failed `get_whale_positions` call, the verifier
nevertheless answers `true` (closed), contradicting the claim that a
wholesale fetch failure is never counted as evidence of closure. -/
theorem spec_c2_cex :
    verify_position_closed "BTC" [[], [], []] = true := by decide

/-- C2 amended: an empty snapshot on a non-final attempt is skipped as
inconclusive, but the skip is semantically a no-op: the verifier
declares the position closed exactly when no attempt's snapshot contains
the instrument, so a run in which every fetch attempt fails (returns the
empty map) - including the final one - is reported as a confirmed
close. -/
theorem spec_c2 (coin : String) (snaps : List Snap) :
    verify_position_closed coin snaps = true ↔
      ∀ s ∈ snaps, snapContains s coin = false := by
  induction snaps with
  | nil => simp [verify_position_closed]
  | cons a rest ih =>
    cases a with
    | nil =>
      cases rest with
      | nil => simp [verify_position_closed, snapContains, alookup]
      | cons b rs =>
        have hskip : verify_position_closed coin ([] :: b :: rs) =
            verify_position_closed coin (b :: rs) := by
          simp [verify_position_closed]
        rw [hskip, ih]
        simp [List.forall_mem_cons, snapContains, alookup]
    | cons hd tl =>
      by_cases hca : snapContains (hd :: tl) coin = true
      · simp [verify_position_closed, hca]
      · simp [verify_position_closed, hca, ih]

/-- C2 witness: the amended equivalence evaluated on an all-empty run of
three attempts. -/
theorem spec_c2_witness :
    verify_position_closed "ETH" [[], [], []] = true ↔
      ∀ s ∈ [([] : Snap), [], []], snapContains s "ETH" = false :=
  spec_c2 "ETH" [[], [], []]

/-- C3 counterexample: a flushed batch with no previously tracked
position, with ground truth showing the instrument present at $200,000
(at or above the $100K default minimum): contrary to the claim, no OPEN
alert is emitted (the code gates on the batch's aggregate value of
$20,000, not on the ground-truth value), and a zero-size stub entry is
created in the table rather than no entry. -/
theorem spec_c3_cex :
    defaultConfig.MIN_POSITION_VALUE ≤ c3x_actual.value ∧
    (process_aggregated_fills defaultConfig "BTC" "B" c3x_state
      [("BTC", c3x_actual)] []).alert = none ∧
    alookup (process_aggregated_fills defaultConfig "BTC" "B" c3x_state
      [("BTC", c3x_actual)] []).state.positions "BTC" = some zeroPosition := by
  norm_num [process_aggregated_fills, c3x_state, c3x_actual, defaultConfig, alookup, aset,
    aerase, snapContains, avg_price, total_size, zeroPosition]

/-- C3 amended: with no previously tracked position and ground truth
showing the instrument present, an OPEN alert is emitted and a Position
is created from the ground-truth data if and only if the flushed batch's
aggregate value (size-weighted average price times total size) is at
least `MIN_POSITION_VALUE`; otherwise no alert is emitted, but a
zero-size stub entry for the instrument (installed before the branch)
remains in the table. -/
theorem spec_c3 (cfg : Config) (coin side : String) (st : TrackerState) (gt : Snap)
    (vsnaps : List Snap) (actual : GtPos)
    (hfills : ((alookup st.pending_fills (coin, side)).getD []).isEmpty = false)
    (hprev : alookup st.positions coin = none)
    (hgt : alookup gt coin = some actual) :
    if cfg.MIN_POSITION_VALUE ≤
        avg_price ((alookup st.pending_fills (coin, side)).getD []) *
          total_size ((alookup st.pending_fills (coin, side)).getD []) then
      (process_aggregated_fills cfg coin side st gt vsnaps).alert =
        some (send_open_alert coin actual.side actual.value
          (avg_price ((alookup st.pending_fills (coin, side)).getD []))) ∧
      alookup (process_aggregated_fills cfg coin side st gt vsnaps).state.positions coin =
        some { size := actual.size, value := actual.value, side := actual.side,
               max_value := actual.value, avg_price := actual.avg_price,
               current_price := actual.current_price }
    else
      (process_aggregated_fills cfg coin side st gt vsnaps).alert = none ∧
      alookup (process_aggregated_fills cfg coin side st gt vsnaps).state.positions coin =
        some zeroPosition := by
  have hcontains : snapContains gt coin = true := by simp [snapContains, hgt]
  by_cases hmin : cfg.MIN_POSITION_VALUE ≤
      avg_price ((alookup st.pending_fills (coin, side)).getD []) *
        total_size ((alookup st.pending_fills (coin, side)).getD [])
  · rw [if_pos hmin]
    simp [process_aggregated_fills, hfills, hprev, hgt, hcontains, hmin,
      alookup_aset_self, zeroPosition]
  · rw [if_neg hmin]
    simp [process_aggregated_fills, hfills, hprev, hgt, hcontains, hmin,
      alookup_aset_self, zeroPosition]

/-- C3 witness: the amended statement evaluated on a batch of notional
$150K with ground truth at $160K: an OPEN alert is sent and the table
entry is built from the ground-truth fields. -/
theorem spec_c3_witness :
    if defaultConfig.MIN_POSITION_VALUE ≤
        avg_price ((alookup c3_state.pending_fills ("BTC", "B")).getD []) *
          total_size ((alookup c3_state.pending_fills ("BTC", "B")).getD []) then
      (process_aggregated_fills defaultConfig "BTC" "B" c3_state
        [("BTC", c3_actual)] []).alert =
        some (send_open_alert "BTC" c3_actual.side c3_actual.value
          (avg_price ((alookup c3_state.pending_fills ("BTC", "B")).getD []))) ∧
      alookup (process_aggregated_fills defaultConfig "BTC" "B" c3_state
        [("BTC", c3_actual)] []).state.positions "BTC" =
        some { size := c3_actual.size, value := c3_actual.value, side := c3_actual.side,
               max_value := c3_actual.value, avg_price := c3_actual.avg_price,
               current_price := c3_actual.current_price }
    else
      (process_aggregated_fills defaultConfig "BTC" "B" c3_state
        [("BTC", c3_actual)] []).alert = none ∧
      alookup (process_aggregated_fills defaultConfig "BTC" "B" c3_state
        [("BTC", c3_actual)] []).state.positions "BTC" = some zeroPosition :=
  spec_c3 defaultConfig "BTC" "B" c3_state [("BTC", c3_actual)] [] c3_actual
    (by decide) (by decide) (by decide)

/-- C4 counterexample: on the periodic full sweep, a tracked position
worth $50,000 (below the $100K minimum) that is absent from a non-empty
ground-truth snapshot and whose close verification confirms absence IS
close-alerted and removed: the sweep path applies no
`MIN_POSITION_VALUE` check, contradicting the claim's "if and only if
... value is at least minPositionValue" on that trigger. -/
theorem spec_c4_cex :
    c4x_pos.value < defaultConfig.MIN_POSITION_VALUE ∧
    (verify_all_positions [("ABC", c4x_pos)] c4x_gt (fun _ => [[], [], []])
      (fun _ => 0)).alerts = [send_close_alert "ABC" "LONG" 50000 5000] ∧
    (verify_all_positions [("ABC", c4x_pos)] c4x_gt (fun _ => [[], [], []])
      (fun _ => 0)).positions = [] := by
  norm_num +decide [verify_all_positions, sweepStep, c4x_pos, c4x_gt, defaultConfig, alookup,
    aerase, snapContains, verify_position_closed, send_close_alert, get_position_emoji_and_tier,
    List.filter_cons, List.filter_nil, List.foldl_cons, List.foldl_nil]

/-- C4 amended: the threshold gate exists only on the batch-evaluation
path: there, for a tracked position absent from ground truth, a CLOSE
alert is emitted and the entry removed if and only if the verifier
confirms the close AND the last tracked value is at least
`MIN_POSITION_VALUE`, and otherwise nothing changes; on the periodic
full sweep, a tracked position absent from a non-empty snapshot is
close-alerted and removed whenever the verifier confirms, with no value
threshold. -/
theorem spec_c4 :
    (∀ (cfg : Config) (coin side : String) (st : TrackerState) (gt : Snap)
        (vsnaps : List Snap) (p : Position),
        ((alookup st.pending_fills (coin, side)).getD []).isEmpty = false →
        alookup st.positions coin = some p →
        0 < p.size →
        snapContains gt coin = false →
        if verify_position_closed coin vsnaps = true ∧ cfg.MIN_POSITION_VALUE ≤ p.value then
          (process_aggregated_fills cfg coin side st gt vsnaps).alert =
            some (send_close_alert coin p.side p.value
              (avg_price ((alookup st.pending_fills (coin, side)).getD []))) ∧
          alookup (process_aggregated_fills cfg coin side st gt vsnaps).state.positions coin =
            none
        else
          (process_aggregated_fills cfg coin side st gt vsnaps).alert = none ∧
          (process_aggregated_fills cfg coin side st gt vsnaps).state.positions =
            st.positions) ∧
    (∀ (coin : String) (p : Position) (gt : Snap) (vsnaps : String → List Snap)
        (asset_price : String → ℚ),
        snapContains gt coin = false →
        gt.isEmpty = false →
        verify_position_closed coin (vsnaps coin) = true →
        (verify_all_positions [(coin, p)] gt vsnaps asset_price).alerts =
          [send_close_alert coin p.side p.value
            (if asset_price coin = 0 then p.current_price else asset_price coin)] ∧
        (verify_all_positions [(coin, p)] gt vsnaps asset_price).positions = []) := by
  constructor
  · intro cfg coin side st gt vsnaps p hfills hp hpos hgt
    have hne : p.size ≠ 0 := ne_of_gt hpos
    by_cases hv : verify_position_closed coin vsnaps = true ∧ cfg.MIN_POSITION_VALUE ≤ p.value
    · rw [if_pos hv]
      simp [process_aggregated_fills, hfills, hp, hpos, hgt, hne, hv.1, hv.2,
        alookup_aerase_self]
    · rw [if_neg hv]
      simp only [process_aggregated_fills, hfills, hp, hpos, hgt, hne]
      simp [hfills, hp, hpos, hgt, hne, hv]
  · intro coin p gt vsnaps asset_price hgt hgtne hver
    have hgt2 : alookup gt coin = none := by
      cases h : alookup gt coin with
      | none => rfl
      | some q => simp [snapContains, h] at hgt
    simp [verify_all_positions, sweepStep, hgt2, hgtne, hver, alookup, aerase, snapContains]

/-- C4 witness: the batch-path biconditional evaluated on a verified
close of a $250K tracked position: the CLOSE alert carries the last
tracked value and side, and the entry is removed. -/
theorem spec_c4_witness :
    if verify_position_closed "BTC" [[("ETH", c1_gtpos)], [], []] = true ∧
        defaultConfig.MIN_POSITION_VALUE ≤ c1_pos.value then
      (process_aggregated_fills defaultConfig "BTC" "B" c1_state []
        [[("ETH", c1_gtpos)], [], []]).alert =
        some (send_close_alert "BTC" c1_pos.side c1_pos.value
          (avg_price ((alookup c1_state.pending_fills ("BTC", "B")).getD []))) ∧
      alookup (process_aggregated_fills defaultConfig "BTC" "B" c1_state []
        [[("ETH", c1_gtpos)], [], []]).state.positions "BTC" = none
    else
      (process_aggregated_fills defaultConfig "BTC" "B" c1_state []
        [[("ETH", c1_gtpos)], [], []]).alert = none ∧
      (process_aggregated_fills defaultConfig "BTC" "B" c1_state []
        [[("ETH", c1_gtpos)], [], []]).state.positions = c1_state.positions :=
  spec_c4.1 defaultConfig "BTC" "B" c1_state [] [[("ETH", c1_gtpos)], [], []] c1_pos
    (by decide) (by decide) (by decide) (by decide)

/-- C5 counterexample: a position whose high-water `max_value` is $2M
but whose tracked value was reduced to $200K is close-alerted with tier
"100K+", the tier of the reduced value, not the "1M+" tier its
`max_value` would give: CLOSE alerts do not derive their tier from the
high-water mark. -/
theorem spec_c5_cex :
    ((process_aggregated_fills defaultConfig "BTC" "A" c5x_state [] [[], [], []]).alert.map
      (fun a => a.tier)) = some "100K+" ∧
    (get_position_emoji_and_tier "BTC" c5x_pos.max_value).2 = "1M+" := by
  norm_num [process_aggregated_fills, c5x_state, c5x_pos, defaultConfig, alookup, aset, aerase,
    snapContains, avg_price, total_size, verify_position_closed, send_close_alert,
    get_position_emoji_and_tier]

/-- C5 amended: the tier sources are: OPEN uses the current (ground
truth) value; PARTIAL_INCREASE and PARTIAL_CLOSE use the position's
high-water `max_value` (for the increase, after it has been refreshed to
`max(new value, old max_value)`); but a full CLOSE uses the position's
last tracked value, not `max_value`, so the $2M-opened, 90%-reduced,
then-closed position is reported at close with tier "100K+". -/
theorem spec_c5 :
    (∀ (cfg : Config) (coin side : String) (st : TrackerState) (gt : Snap)
        (vsnaps : List Snap) (p : Position),
        ((alookup st.pending_fills (coin, side)).getD []).isEmpty = false →
        alookup st.positions coin = some p →
        0 < p.size →
        snapContains gt coin = false →
        verify_position_closed coin vsnaps = true →
        cfg.MIN_POSITION_VALUE ≤ p.value →
        ((process_aggregated_fills cfg coin side st gt vsnaps).alert.map (fun a => a.tier)) =
          some (get_position_emoji_and_tier coin p.value).2) ∧
    (∀ (cfg : Config) (coin side : String) (st : TrackerState) (gt : Snap)
        (vsnaps : List Snap) (actual : GtPos),
        ((alookup st.pending_fills (coin, side)).getD []).isEmpty = false →
        alookup st.positions coin = none →
        alookup gt coin = some actual →
        cfg.MIN_POSITION_VALUE ≤
          avg_price ((alookup st.pending_fills (coin, side)).getD []) *
            total_size ((alookup st.pending_fills (coin, side)).getD []) →
        ((process_aggregated_fills cfg coin side st gt vsnaps).alert.map (fun a => a.tier)) =
          some (get_position_emoji_and_tier coin actual.value).2) ∧
    (∀ (cfg : Config) (coin side : String) (st : TrackerState) (gt : Snap)
        (vsnaps : List Snap) (p : Position) (actual : GtPos),
        ((alookup st.pending_fills (coin, side)).getD []).isEmpty = false →
        alookup st.positions coin = some p →
        0 < p.size →
        alookup gt coin = some actual →
        p.size < actual.size →
        cfg.PARTIAL_CHANGE_THRESHOLD ≤ (actual.size - p.size) / p.size →
        ((process_aggregated_fills cfg coin side st gt vsnaps).alert.map (fun a => a.tier)) =
          some (get_position_emoji_and_tier coin (max actual.value p.max_value)).2) ∧
    (∀ (cfg : Config) (coin side : String) (st : TrackerState) (gt : Snap)
        (vsnaps : List Snap) (p : Position) (actual : GtPos),
        ((alookup st.pending_fills (coin, side)).getD []).isEmpty = false →
        alookup st.positions coin = some p →
        0 < p.size →
        alookup gt coin = some actual →
        ¬(p.size < actual.size) →
        cfg.PARTIAL_CHANGE_THRESHOLD ≤ (p.size - actual.size) / p.size →
        ((process_aggregated_fills cfg coin side st gt vsnaps).alert.map (fun a => a.tier)) =
          some (get_position_emoji_and_tier coin p.max_value).2) := by
  refine ⟨?_, ?_, ?_, ?_⟩
  · intro cfg coin side st gt vsnaps p hfills hp hpos hgt hver hmin
    have hne : p.size ≠ 0 := ne_of_gt hpos
    simp [process_aggregated_fills, hfills, hp, hpos, hgt, hne, hver, hmin, send_close_alert]
  · intro cfg coin side st gt vsnaps actual hfills hprev hgt hmin
    have hcontains : snapContains gt coin = true := by simp [snapContains, hgt]
    simp [process_aggregated_fills, hfills, hprev, hgt, hcontains, hmin,
      alookup_aset_self, zeroPosition, send_open_alert]
  · intro cfg coin side st gt vsnaps p actual hfills hp hpos hgt hsize hpct
    have hne : p.size ≠ 0 := ne_of_gt hpos
    have hcontains : snapContains gt coin = true := by simp [snapContains, hgt]
    simp [process_aggregated_fills, hfills, hp, hpos, hgt, hne, hcontains, hsize, hpct,
      alookup_aset_self, send_partial_increase_alert]
  · intro cfg coin side st gt vsnaps p actual hfills hp hpos hgt hsize hpct
    have hne : p.size ≠ 0 := ne_of_gt hpos
    have hcontains : snapContains gt coin = true := by simp [snapContains, hgt]
    simp [process_aggregated_fills, hfills, hp, hpos, hgt, hne, hcontains, hsize, hpct,
      alookup_aset_self, send_partial_close_alert]

/-- C5 witness: the CLOSE-tier rule evaluated on a verified close of a
$250K position: the tier comes from the last tracked value. -/
theorem spec_c5_witness :
    ((process_aggregated_fills defaultConfig "BTC" "B" c1_state [] [[], [], []]).alert.map
      (fun a => a.tier)) = some (get_position_emoji_and_tier "BTC" c1_pos.value).2 :=
  spec_c5.1 defaultConfig "BTC" "B" c1_state [] [[], [], []] c1_pos
    (by decide) (by decide) (by decide) (by decide) (by decide) (by decide)

/-- C6 counterexample: evaluating a fill batch for an instrument absent
from both the table and ground truth leaves a zero-size stub entry in
the position table, contradicting both "no table entry ever has size
zero" and "leaves no entry behind". -/
theorem spec_c6_cex :
    alookup (process_aggregated_fills defaultConfig "ABC" "B" c6x_state [] []).state.positions
      "ABC" = some zeroPosition ∧
    zeroPosition.size = 0 := by
  norm_num [process_aggregated_fills, c6x_state, defaultConfig, alookup, aset, aerase,
    snapContains, avg_price, total_size, zeroPosition]

/-- C6 amended: the table-membership invariant fails in one direction:
whenever a batch is evaluated for an instrument with no tracked entry,
a zero-size stub entry is first installed, and on the paths that do not
open a position from ground truth (in particular instrument absent from
ground truth, or present but with the batch below the minimum value) the
stub is left in the table, so entries with size zero do occur and an
absent/absent evaluation leaves an entry behind (with no alert). -/
theorem spec_c6 (cfg : Config) (coin side : String) (st : TrackerState) (gt : Snap)
    (vsnaps : List Snap)
    (hfills : ((alookup st.pending_fills (coin, side)).getD []).isEmpty = false)
    (hprev : alookup st.positions coin = none)
    (hgt : snapContains gt coin = false) :
    alookup (process_aggregated_fills cfg coin side st gt vsnaps).state.positions coin =
      some zeroPosition ∧
    (process_aggregated_fills cfg coin side st gt vsnaps).alert = none := by
  simp [process_aggregated_fills, hfills, hprev, hgt, alookup_aset_self, zeroPosition]

/-- C6 witness: the amended statement evaluated on the concrete
absent/absent fixture. -/
theorem spec_c6_witness :
    alookup (process_aggregated_fills defaultConfig "ABC" "B" c6x_state [] []).state.positions
      "ABC" = some zeroPosition ∧
    (process_aggregated_fills defaultConfig "ABC" "B" c6x_state [] []).alert = none :=
  spec_c6 defaultConfig "ABC" "B" c6x_state [] [] (by decide) (by decide) (by decide)

/-- C7: whenever the debounce timer fires on a non-empty pending batch
(the only reachable case: enqueuing always leaves the key's batch
non-empty), the evaluation removes both the pending-fill batch and the
timer entry for that key on every path, including every early-return
path. -/
theorem spec_c7 (cfg : Config) (coin side : String) (st : TrackerState) (gt : Snap)
    (vsnaps : List Snap)
    (hfills : ((alookup st.pending_fills (coin, side)).getD []).isEmpty = false) :
    alookup (process_aggregated_fills cfg coin side st gt vsnaps).state.pending_fills
      (coin, side) = none ∧
    (coin, side) ∉ (process_aggregated_fills cfg coin side st gt vsnaps).state.fill_timers := by
  simp only [process_aggregated_fills]
  rw [hfills]
  simp only [Bool.false_eq_true, if_false]
  split_ifs <;>
    exact ⟨alookup_aerase_self _ _, not_mem_filter_self _ _⟩

/-- C7 witness: the cleanup property evaluated on the close-verification
fixture state. -/
theorem spec_c7_witness :
    alookup (process_aggregated_fills defaultConfig "BTC" "B" c1_state [] []).state.pending_fills
      ("BTC", "B") = none ∧
    ("BTC", "B") ∉ (process_aggregated_fills defaultConfig "BTC" "B" c1_state
      [] []).state.fill_timers :=
  spec_c7 defaultConfig "BTC" "B" c1_state [] [] (by decide)

/-! Further helper lemmas for the aggregation-fold and sweep proofs. -/

theorem filter_ne_idem {α : Type} [DecidableEq α] (l : List α) (k : α) :
    (l.filter (fun x => ! decide (x = k))).filter (fun x => ! decide (x = k)) =
      l.filter (fun x => ! decide (x = k)) := by
  rw [List.filter_filter]
  simp

theorem filter_ne_append_self {α : Type} [DecidableEq α] (l : List α) (k : α) :
    ((l.filter (fun x => ! decide (x = k))) ++ [k]).filter (fun x => ! decide (x = k)) =
      l.filter (fun x => ! decide (x = k)) := by
  rw [List.filter_append, filter_ne_idem]
  simp

/-- Folding `queue_fill_for_aggregation` over a non-empty run of admitted
fills for one key appends them all to that key's pending batch, leaves
the position table untouched, and leaves exactly one (the latest) timer
armed for the key. -/
theorem queue_fill_fold (coin side : String) (fills : List Fill) :
    ∀ st : TrackerState, fills ≠ [] →
      (∀ f ∈ fills, f.coin = coin ∧ f.side = side ∧ (10000 : ℚ) ≤ f.sz * f.px) →
      (fills.foldl queue_fill_for_aggregation st).positions = st.positions ∧
      (fills.foldl queue_fill_for_aggregation st).pending_fills =
        aset st.pending_fills (coin, side)
          (((alookup st.pending_fills (coin, side)).getD []) ++ fills) ∧
      (fills.foldl queue_fill_for_aggregation st).fill_timers =
        (st.fill_timers.filter (fun k => ! decide (k = (coin, side)))) ++ [(coin, side)] := by
  induction fills with
  | nil => intro st hne _; exact absurd rfl hne
  | cons f rest ih =>
    intro st _ hall
    obtain ⟨hcoin, hside, hfloor⟩ := hall f (List.mem_cons_self f rest)
    have hnotlt : ¬(f.sz * f.px < 10000) := not_lt.mpr hfloor
    have hq : queue_fill_for_aggregation st f =
        { positions := st.positions,
          pending_fills := aset st.pending_fills (coin, side)
            (((alookup st.pending_fills (coin, side)).getD []) ++ [f]),
          fill_timers :=
            (st.fill_timers.filter (fun k => ! decide (k = (coin, side)))) ++ [(coin, side)] } := by
      simp [queue_fill_for_aggregation, hnotlt, hcoin, hside]
    have hstep : (f :: rest).foldl queue_fill_for_aggregation st =
        rest.foldl queue_fill_for_aggregation (queue_fill_for_aggregation st f) := rfl
    cases rest with
    | nil =>
      rw [hstep, hq]
      simp
    | cons g rs =>
      have ih' := ih (queue_fill_for_aggregation st f) (by simp)
        (fun x hx => hall x (List.mem_cons_of_mem f hx))
      rw [hstep]
      refine ⟨?_, ?_, ?_⟩
      · rw [ih'.1, hq]
      · rw [ih'.2.1, hq]
        simp [alookup_aset_self, aset_aset]
      · rw [ih'.2.2, hq]
        simp [filter_ne_append_self]

/-- Each sweep iteration keeps the alert count equal to the alert-list
length. -/
theorem sweep_foldl_length (vsnaps : String → List Snap) (asset_price : String → ℚ)
    (coins : List String) :
    ∀ acc : List (String × Position) × List Alert × Nat,
      acc.2.1.length = acc.2.2 →
      ((coins.foldl (sweepStep vsnaps asset_price) acc).2.1).length =
        (coins.foldl (sweepStep vsnaps asset_price) acc).2.2 := by
  induction coins with
  | nil => intro acc h; exact h
  | cons c cs ih =>
    intro acc h
    apply ih
    unfold sweepStep
    cases halo : alookup acc.1 c with
    | none => simpa using h
    | some tracked =>
      by_cases hv : verify_position_closed c (vsnaps c) = true
      · simp [hv, h]
      · simpa [hv] using h

/-- When the sweep fold produced a non-empty alert list, its close count
is positive. -/
theorem sweep_saved (vsnaps : String → List Snap) (asset_price : String → ℚ)
    (coins : List String) (acc : List (String × Position) × List Alert × Nat)
    (hlen : acc.2.1.length = acc.2.2)
    (h : (coins.foldl (sweepStep vsnaps asset_price) acc).2.1 ≠ []) :
    0 < (coins.foldl (sweepStep vsnaps asset_price) acc).2.2 := by
  have h1 := sweep_foldl_length vsnaps asset_price coins acc hlen
  have h2 : 0 < ((coins.foldl (sweepStep vsnaps asset_price) acc).2.1).length :=
    List.length_pos.mpr h
  omega

/-- C8 counterexample: a non-empty sequence of fills (here a single fill
of notional $5,000, below the aggregator's $10,000 floor) produces NO
reconciliation evaluation at all: the fill is dropped, no batch is
accumulated and no timer is armed, so no evaluation with the claimed
aggregate occurs. -/
theorem spec_c8_cex :
    (queue_fill_for_aggregation c8x_st0 c8x_fill).fill_timers = [] ∧
    (queue_fill_for_aggregation c8x_st0 c8x_fill).pending_fills = [] ∧
    process_aggregated_fills defaultConfig "BTC" "B"
        (queue_fill_for_aggregation c8x_st0 c8x_fill) [] [] =
      { state := queue_fill_for_aggregation c8x_st0 c8x_fill, alert := none, saved := false } := by
  norm_num [queue_fill_for_aggregation, process_aggregated_fills, c8x_st0, c8x_fill, alookup]

/-- C8 amended: for every non-empty sequence of fills for one
(instrument, side), each arriving within the aggregation window of the
previous one AND each at or above the $10,000 notional admission floor,
exactly one evaluation is armed (one timer, for the consolidated batch),
the batch it will evaluate is exactly that fill sequence, and the
evaluation's aggregate size is the sum of the fills' sizes and its
aggregate price the size-weighted average of their prices. -/
theorem spec_c8 (coin side : String) (fills : List Fill) (ps : List (String × Position))
    (hne : fills ≠ [])
    (hall : ∀ f ∈ fills, f.coin = coin ∧ f.side = side ∧ (10000 : ℚ) ≤ f.sz * f.px) :
    alookup (fills.foldl queue_fill_for_aggregation
      { positions := ps, pending_fills := [], fill_timers := [] }).pending_fills
      (coin, side) = some fills ∧
    (fills.foldl queue_fill_for_aggregation
      { positions := ps, pending_fills := [], fill_timers := [] }).fill_timers =
      [(coin, side)] ∧
    total_size fills = (fills.map (fun f => f.sz)).sum ∧
    avg_price fills = (fills.map (fun f => f.px * f.sz)).sum / (fills.map (fun f => f.sz)).sum := by
  obtain ⟨-, hpend, htim⟩ := queue_fill_fold coin side fills
    { positions := ps, pending_fills := [], fill_timers := [] } hne hall
  refine ⟨?_, ?_, rfl, rfl⟩
  · rw [hpend]
    simp [alookup, aset]
  · rw [htim]
    simp

/-- C8 witness: three admitted fills for BTC/B folded into a fresh state
arm exactly one timer and accumulate the full batch. -/
theorem spec_c8_witness :
    alookup ([c10x_f1, { coin := "BTC", side := "B", sz := 2, px := 30000 },
        { coin := "BTC", side := "B", sz := 1, px := 25000 }].foldl
        queue_fill_for_aggregation
        { positions := [], pending_fills := [], fill_timers := [] }).pending_fills
      ("BTC", "B") =
      some [c10x_f1, { coin := "BTC", side := "B", sz := 2, px := 30000 },
        { coin := "BTC", side := "B", sz := 1, px := 25000 }] ∧
    ([c10x_f1, { coin := "BTC", side := "B", sz := 2, px := 30000 },
        { coin := "BTC", side := "B", sz := 1, px := 25000 }].foldl
        queue_fill_for_aggregation
        { positions := [], pending_fills := [], fill_timers := [] }).fill_timers =
      [("BTC", "B")] ∧
    total_size [c10x_f1, { coin := "BTC", side := "B", sz := 2, px := 30000 },
        { coin := "BTC", side := "B", sz := 1, px := 25000 }] =
      ([c10x_f1, { coin := "BTC", side := "B", sz := 2, px := 30000 },
        { coin := "BTC", side := "B", sz := 1, px := 25000 }].map (fun f => f.sz)).sum ∧
    avg_price [c10x_f1, { coin := "BTC", side := "B", sz := 2, px := 30000 },
        { coin := "BTC", side := "B", sz := 1, px := 25000 }] =
      ([c10x_f1, { coin := "BTC", side := "B", sz := 2, px := 30000 },
        { coin := "BTC", side := "B", sz := 1, px := 25000 }].map (fun f => f.px * f.sz)).sum /
        ([c10x_f1, { coin := "BTC", side := "B", sz := 2, px := 30000 },
          { coin := "BTC", side := "B", sz := 1, px := 25000 }].map (fun f => f.sz)).sum :=
  spec_c8 "BTC" "B" _ [] (by simp)
    (by
      intro f hf
      simp only [List.mem_cons, List.not_mem_nil, or_false] at hf
      rcases hf with rfl | rfl | rfl
      · exact ⟨rfl, rfl, by norm_num [c10x_f1]⟩
      · exact ⟨rfl, rfl, by norm_num⟩
      · exact ⟨rfl, rfl, by norm_num⟩)

/-- C9 counterexample: a silent below-threshold reduction (100 to 95,
5% < 15%) mutates the tracked entry in place but does not write the
table to storage: `saved` is false while the entry's size changed. -/
theorem spec_c9_cex :
    (process_aggregated_fills defaultConfig "BTC" "A" c9x_state c9x_gt []).saved = false ∧
    alookup (process_aggregated_fills defaultConfig "BTC" "A" c9x_state
        c9x_gt []).state.positions "BTC" =
      some { size := 95, value := 142500, side := "LONG", max_value := 150000,
             avg_price := 1500, current_price := 1500 } ∧
    alookup c9x_state.positions "BTC" = some c9x_pos ∧
    c9x_pos.size = 100 := by
  norm_num [process_aggregated_fills, c9x_state, c9x_pos, c9x_gt, defaultConfig, alookup, aset,
    aerase, snapContains, avg_price, total_size]

/-- C9 amended: the table is persisted after every alert-emitting
mutation (every batch evaluation that sends an alert saves, and the full
sweep saves whenever it sent at least one CLOSE alert), but silent
mutations - below-threshold size/value refreshes and stub creation - are
not followed by a save. -/
theorem spec_c9 :
    (∀ (cfg : Config) (coin side : String) (st : TrackerState) (gt : Snap)
        (vsnaps : List Snap) (a : Alert),
        (process_aggregated_fills cfg coin side st gt vsnaps).alert = some a →
        (process_aggregated_fills cfg coin side st gt vsnaps).saved = true) ∧
    (∀ (positions : List (String × Position)) (gt : Snap)
        (vsnaps : String → List Snap) (asset_price : String → ℚ),
        (verify_all_positions positions gt vsnaps asset_price).alerts ≠ [] →
        (verify_all_positions positions gt vsnaps asset_price).saved = true) := by
  constructor
  · intro cfg coin side st gt vsnaps a h
    revert h
    simp only [process_aggregated_fills]
    split_ifs <;> simp
  · intro positions gt vsnaps asset_price h
    revert h
    unfold verify_all_positions
    split_ifs with h1 h2
    · simp
    · simp
    · intro h
      exact decide_eq_true (sweep_saved vsnaps asset_price _ (positions, [], 0) rfl h)

/-- C9 witness: an alert-emitting OPEN evaluation does persist the
table. -/
theorem spec_c9_witness :
    (process_aggregated_fills defaultConfig "BTC" "B" c3_state [("BTC", c3_actual)] []).saved =
      true :=
  spec_c9.1 defaultConfig "BTC" "B" c3_state [("BTC", c3_actual)] []
    (send_open_alert "BTC" c3_actual.side c3_actual.value
      (avg_price ((alookup c3_state.pending_fills ("BTC", "B")).getD [])))
    (by norm_num [process_aggregated_fills, c3_state, c3_actual, defaultConfig, alookup, aset,
      aerase, snapContains, avg_price, total_size, send_open_alert, get_position_emoji_and_tier,
      zeroPosition])

/-- C10 counterexample: the admission guard `value < 10000` does not
force a positive size: a fill with negative size and negative price is
admitted to the batch, and a two-fill batch of admitted fills can reach
the averaging step with total size exactly 0 - the divisor of the
size-weighted average - so "hence positive size" and "total size is
strictly positive" are both false as stated. -/
theorem spec_c10_cex :
    ¬(c10x_f2.sz * c10x_f2.px < 10000) ∧
    c10x_f2.sz < 0 ∧
    alookup (queue_fill_for_aggregation (queue_fill_for_aggregation c8x_st0 c10x_f1)
        c10x_f2).pending_fills ("BTC", "B") = some [c10x_f1, c10x_f2] ∧
    total_size [c10x_f1, c10x_f2] = 0 := by
  norm_num [queue_fill_for_aggregation, c8x_st0, c10x_f1, c10x_f2, alookup, aset, total_size]

/-- C10 amended: every admitted fill has nonzero size (so a singleton
batch cannot have zero total); if in addition every fill's price is
positive (as exchange prices are), every admitted fill's size is
positive and the total size of a non-empty batch is strictly positive,
so the size-weighted average divides by a nonzero total; and a flushed
empty batch returns before the averaging step, leaving the state
untouched. -/
theorem spec_c10 :
    (∀ f : Fill, ¬(f.sz * f.px < 10000) → f.sz ≠ 0) ∧
    (∀ fills : List Fill, fills ≠ [] →
        (∀ f ∈ fills, ¬(f.sz * f.px < 10000) ∧ 0 < f.px) →
        0 < total_size fills) ∧
    (∀ (cfg : Config) (coin side : String) (st : TrackerState) (gt : Snap)
        (vsnaps : List Snap),
        (alookup st.pending_fills (coin, side)).getD [] = [] →
        process_aggregated_fills cfg coin side st gt vsnaps =
          { state := st, alert := none, saved := false }) := by
  refine ⟨?_, ?_, ?_⟩
  · intro f h hz
    exact h (by rw [hz]; norm_num)
  · intro fills hne hall
    apply List.sum_pos
    · intro x hx
      obtain ⟨f, hf, rfl⟩ := List.mem_map.mp hx
      obtain ⟨hfloor, hpx⟩ := hall f hf
      have h1 : (0 : ℚ) < f.sz * f.px := lt_of_lt_of_le (by norm_num) (not_lt.mp hfloor)
      rcases (mul_pos_iff.mp h1) with ⟨hs, _⟩ | ⟨_, hneg⟩
      · exact hs
      · exact absurd hpx (not_lt.mpr (le_of_lt hneg))
    · simpa using hne
  · intro cfg coin side st gt vsnaps h
    simp [process_aggregated_fills, h]

/-- C10 witness: a singleton admitted batch with positive price has
strictly positive total size. -/
theorem spec_c10_witness :
    (0 : ℚ) < total_size [c10x_f1] :=
  spec_c10.2.1 [c10x_f1] (by simp)
    (by
      intro f hf
      simp only [List.mem_singleton] at hf
      subst hf
      exact ⟨by norm_num [c10x_f1], by norm_num [c10x_f1]⟩)

end WhaleTracker
